import Mathlib

/-!
Verification development for the SaifuFinanceBot repository
(`saifu_finance_bot.py`): a Telegram finance bot that collects a
transaction through a five-state conversation, appends it to a Google
Sheet, and renders weekly/monthly summaries.

The Python source is shallowly embedded here:
* spreadsheet cell values become `Cell` (gspread returns strings or
  numbers; numbers are modelled exactly as rationals),
* a sheet record (`dict` from `get_all_records`) becomes an association
  list `Rec`,
* Python `or`-chains with truthiness become `pyOr` / `orD`,
* string methods (`strip`, `replace`, `lower`, `isdigit`, `split`) are
  re-implemented structurally over `List Char`; `isdigit` and
  lowercasing are modelled on the ASCII range (the corners where
  CPython accepts wider Unicode are outside the model),
* `datetime.strptime` with the two formats used at line 187 becomes
  `parseTs`,
* the `try ... except: continue` loop body of `generate_summary`
  becomes the `Option`-valued `procRec` (`none` = record skipped),
* handler bodies become total functions into `Except PyErr StepOut`,
  where `.error` models an exception escaping the handler,
* numeric values are exact rationals; where a property depends on the
  program's IEEE-754 float arithmetic rather than on classification or
  routing, the binary64 rounding of each addition is modelled
  explicitly (`flRound`/`flAdd`, `generate_summary_float`).

The dead assignment `now = datetime.utcnow().isoformat()` at source
line 160 (which carries a stray trailing backtick in the repository) is
omitted: it binds an unused local.
-/

deriving instance DecidableEq for Except

/-! ## Python string primitives over `List Char` -/

/-- The whitespace stripped by Python `str.strip()` (ASCII range). -/
def pySpace (c : Char) : Bool :=
  c == ' ' || c == '\t' || c == '\n' || c == '\r' || c == '\x0b' || c == '\x0c'

/-- The `s.strip()`. -/
def pyStrip (cs : List Char) : List Char :=
  ((cs.dropWhile pySpace).reverse.dropWhile pySpace).reverse

/-- The `s.replace(c, '')` for a one-character pattern. -/
def removeChar (c : Char) (cs : List Char) : List Char :=
  cs.filter (fun x => x != c)

/-- The `s.lower()` (ASCII). -/
def pyLower (cs : List Char) : List Char :=
  cs.map Char.toLower

/-- The `s.isdigit()` (ASCII): non-empty and all digits. -/
def pyIsDigit (cs : List Char) : Bool :=
  !cs.isEmpty && cs.all Char.isDigit

/-- The `s.startswith(p)`. -/
def startsWithL : List Char → List Char → Bool
  | _, [] => true
  | [], _ :: _ => false
  | c :: cs, p :: ps => c == p && startsWithL cs ps

/-- Split on a single separator character (as `strptime`'s literal
`-`, `:` and ` ` delimiters cut the input). -/
def splitCh (sep : Char) : List Char → List (List Char)
  | [] => [[]]
  | c :: t =>
    match splitCh sep t with
    | [] => [[c]]
    | h :: r => if c == sep then [] :: h :: r else (c :: h) :: r

/-- Numeric value of a digit list (most significant first). -/
def digitsVal (cs : List Char) : ℕ :=
  cs.foldl (fun a c => a * 10 + (c.toNat - 48)) 0

/-- The `int(s)`-style digit-field parse: `some` iff non-empty and all digits. -/
def digitsN (cs : List Char) : Option ℕ :=
  if pyIsDigit cs then some (digitsVal cs) else none

/-! ## Cell values and records -/

/-- A spreadsheet cell value as returned by `gspread.get_all_records`:
either a string or a number (modelled exactly as a rational). -/
inductive Cell where
  | str (s : String)
  | num (q : ℚ)
deriving DecidableEq, Repr

/-- Python truthiness of a cell value: empty string and zero are falsy. -/
def Cell.truthy : Cell → Bool
  | .str s => !s.data.isEmpty
  | .num q => q != 0

/-- Python `x or y` on an optional cell (`none` = the key was absent,
i.e. the Python value `None`, which is falsy). -/
def pyOr (x y : Option Cell) : Option Cell :=
  match x with
  | some c => if c.truthy then some c else y
  | none => y

/-- Python `x or d` where the final alternative is a literal default:
returns the cell if truthy, else the default. -/
def orD (x : Option Cell) (d : Cell) : Cell :=
  match x with
  | some c => if c.truthy then c else d
  | none => d

/-- One sheet record: the field-name → value mapping produced by
`sheet.get_all_records()`. -/
abbrev Rec := List (String × Cell)

/-- The `r.get(k)`: first value stored under key `k`, if any. -/
def recGet (r : Rec) (k : String) : Option Cell :=
  List.lookup k r

/-! ## Timestamps

`generate_summary` parses the stored timestamp with
`datetime.strptime(t, '%Y-%m-%d %H:%M:%S') if ' ' in t else
 datetime.strptime(t, '%Y-%m-%d')` and compares `datetime` values
chronologically.  A parsed timestamp is modelled as its six calendar
fields; comparison goes through the strictly monotone `Dt.key`. -/

/-- A parsed timestamp (year, month, day, hour, minute, second). -/
structure Dt where
  year : ℕ
  month : ℕ
  day : ℕ
  hour : ℕ
  minute : ℕ
  second : ℕ
deriving DecidableEq, Repr

/-- Chronological key: strictly monotone in the lexicographic field
order for in-range fields (month ≤ 12 < 13, day ≤ 31 < 32, …). -/
def Dt.key (d : Dt) : ℕ :=
  ((((d.year * 13 + d.month) * 32 + d.day) * 24 + d.hour) * 60 + d.minute) * 60 + d.second

/-- The `dt < since` as compared by Python on `datetime` values. -/
def dtLt (a b : Dt) : Bool := a.key < b.key

/-- Leap-year test of the Gregorian calendar (Python `datetime`). -/
def isLeap (y : ℕ) : Bool := y % 4 == 0 && (y % 100 != 0 || y % 400 == 0)

/-- Days in a month, as validated by the `datetime` constructor. -/
def daysInMonth (y m : ℕ) : ℕ :=
  if m = 2 then (if isLeap y then 29 else 28)
  else if m = 4 ∨ m = 6 ∨ m = 9 ∨ m = 11 then 30
  else 31

/-- A 1- or 2-digit numeric field (`strptime` `%m`/`%d`/`%H`/`%M`/`%S`
accept one or two digits; range checks are applied by the caller). -/
def parse2 (cs : List Char) : Option ℕ :=
  if cs.length = 1 ∨ cs.length = 2 then digitsN cs else none

/-- The `strptime` `%Y`: exactly four digits. -/
def parse4 (cs : List Char) : Option ℕ :=
  if cs.length = 4 then digitsN cs else none

/-- The `strptime(_, '%Y-%m-%d')` followed by `datetime` validation. -/
def parseDate (cs : List Char) : Option (ℕ × ℕ × ℕ) :=
  match splitCh '-' cs with
  | [ys, ms, ds] =>
    match parse4 ys, parse2 ms, parse2 ds with
    | some y, some m, some d =>
      if 1 ≤ m ∧ m ≤ 12 ∧ 1 ≤ d ∧ d ≤ daysInMonth y m then some (y, m, d) else none
    | _, _, _ => none
  | _ => none

/-- The `strptime(_, '%H:%M:%S')` followed by `datetime` validation. -/
def parseTime (cs : List Char) : Option (ℕ × ℕ × ℕ) :=
  match splitCh ':' cs with
  | [hs, ms, ss] =>
    match parse2 hs, parse2 ms, parse2 ss with
    | some h, some mi, some se =>
      if h ≤ 23 ∧ mi ≤ 59 ∧ se ≤ 59 then some (h, mi, se) else none
    | _, _, _ => none
  | _ => none

/-- The timestamp parse of `generate_summary` line 187: the date-time
format when the string contains a space, the date-only format
otherwise. -/
def parseTs (t : String) : Option Dt :=
  if t.data.contains ' ' then
    match splitCh ' ' t.data with
    | [dp, tp] =>
      match parseDate dp, parseTime tp with
      | some (y, m, d), some (h, mi, se) => some ⟨y, m, d, h, mi, se⟩
      | _, _ => none
    | _ => none
  else
    match parseDate t.data with
    | some (y, m, d) => some ⟨y, m, d, 0, 0, 0⟩
    | none => none

/-! ## Python `float` on strings

`float(text)` for the strings reaching it in this program: optional
sign, decimal digits with at most one dot, optional exponent.
(CPython additionally accepts `inf`/`nan` and `_` digit separators;
those corners are outside the numeric model.) -/

/-- Exact rational addition, phrased through `mkRat` so that the
kernel can evaluate it on concrete inputs (core `Rat.add` is
irreducible); proved equal to `+` in `pyAdd_eq` below.  This is the
exact-arithmetic abstraction of Python's float `+`: each real addition
the program performs is `pyAdd` followed by an IEEE-754 binary64
rounding, modelled separately by `flRound`/`flAdd` below for the one
claim whose truth depends on that rounding. -/
def pyAdd (a b : ℚ) : ℚ :=
  mkRat (a.num * b.den + b.num * a.den) (a.den * b.den)

/-- The `int(f)` on a (non-negative or negative) float: truncation toward
zero, as Python `int()`. -/
def pyInt (q : ℚ) : ℤ := q.num.tdiv q.den

/-- Parse the optional exponent suffix; `none` = `ValueError`. -/
def parseExp (cs : List Char) : Option (Bool × ℕ) :=
  match cs with
  | [] => some (true, 0)
  | 'e' :: t | 'E' :: t =>
    let (pos, t') := match t with
      | '+' :: u => (true, u)
      | '-' :: u => (false, u)
      | _ => (true, t)
    let (ds, rest) := t'.span Char.isDigit
    if ds.isEmpty ∨ ¬ rest.isEmpty then none else some (pos, digitsVal ds)
  | _ => none

/-- The `float(s)` on a string: `some` value on success, `none` when
CPython raises `ValueError`. -/
def pyFloatStr (cs0 : List Char) : Option ℚ :=
  let cs := pyStrip cs0
  let (sgn, cs1) : ℤ × List Char :=
    match cs with
    | '+' :: t => (1, t)
    | '-' :: t => (-1, t)
    | _ => (1, cs)
  let (ip, rest1) := cs1.span Char.isDigit
  let withFrac (fp rest : List Char) : Option ℚ :=
    if ip.isEmpty ∧ fp.isEmpty then none
    else
      match parseExp rest with
      | some (pos, e) =>
        let m := digitsVal (ip ++ fp)
        let k := fp.length
        some (if pos then mkRat (sgn * (m * 10 ^ e : ℕ)) (10 ^ k)
              else mkRat (sgn * (m : ℤ)) (10 ^ (k + e)))
      | none => none
  match rest1 with
  | '.' :: t =>
    let (fp, rest2) := t.span Char.isDigit
    withFrac fp rest2
  | _ => withFrac [] rest1

/-- The `float(c)` on a cell value. -/
def pyFloat : Cell → Option ℚ
  | .num q => some q
  | .str s => pyFloatStr s.data

/-! ## `generate_summary` (source lines 177–201) -/

/-- The contribution of one non-skipped record. -/
structure Contrib where
  income : Bool
  amt : ℚ
  cat : Cell
deriving DecidableEq, Repr

/-- The `Tanggal or tanggal or Timestamp` chain of line 184. -/
def tanggalChain (r : Rec) : Option Cell :=
  pyOr (recGet r "Tanggal") (pyOr (recGet r "tanggal") (recGet r "Timestamp"))

/-- The `Jenis or jenis or Jenis (Pemasukan/Pengeluaran)` chain of line 190. -/
def jenisChain (r : Rec) : Option Cell :=
  pyOr (recGet r "Jenis") (pyOr (recGet r "jenis") (recGet r "Jenis (Pemasukan/Pengeluaran)"))

/-- The `Jumlah or jumlah or 0` chain of line 191 (default literal `0`). -/
def jumlahChain (r : Rec) : Cell :=
  orD (pyOr (recGet r "Jumlah") (recGet r "jumlah")) (.num 0)

/-- The `Kategori or kategori or 'Lain-lain'` chain of line 192. -/
def kategoriChain (r : Rec) : Cell :=
  orD (pyOr (recGet r "Kategori") (recGet r "kategori")) (.str "Lain-lain")

/-- One iteration of the `for r in records` loop body, lines 182–199.
`none` models both the explicit `continue`s (falsy timestamp, record
older than the window) and the `except Exception: continue` (timestamp
that fails `strptime`, a numeric timestamp cell — `' ' in t` raises
`TypeError` —, an amount string `float` rejects, a truthy numeric type
cell — `.lower()` raises `AttributeError`). -/
def procRec (since : Dt) (r : Rec) : Option Contrib :=
  match tanggalChain r with
  | none => none
  | some tc =>
    if ¬ tc.truthy then none
    else
      match tc with
      | .num _ => none
      | .str ts =>
        match parseTs ts with
        | none => none
        | some dt =>
          if dtLt dt since then none
          else
            let jenis := jenisChain r
            match pyFloat (jumlahChain r) with
            | none => none
            | some amt =>
              let kat := kategoriChain r
              match jenis with
              | some (.num q) => if q != 0 then none else some ⟨false, amt, kat⟩
              | some (.str s) =>
                if s.data.isEmpty then some ⟨false, amt, kat⟩
                else if startsWithL (pyLower s.data) "pemasukan".data then some ⟨true, amt, kat⟩
                else some ⟨false, amt, kat⟩
              | none => some ⟨false, amt, kat⟩

/-- The `by_category[kategori] = by_category.get(kategori, 0) + jumlah`:
Python-dict update, preserving insertion order, appending new keys. -/
def updCat : List (Cell × ℚ) → Cell → ℚ → List (Cell × ℚ)
  | [], k, v => [(k, v)]
  | (k', v') :: t, k, v =>
    if k' = k then (k', pyAdd v' v) :: t else (k', v') :: updCat t k v

/-- One loop iteration's effect on the accumulator
`(total_pemasukan, total_pengeluaran, by_category)`. -/
def gsStep (since : Dt) (acc : ℚ × ℚ × List (Cell × ℚ)) (r : Rec) : ℚ × ℚ × List (Cell × ℚ) :=
  match procRec since r with
  | none => acc
  | some c =>
    if c.income then (pyAdd acc.1 c.amt, acc.2.1, acc.2.2)
    else (acc.1, pyAdd acc.2.1 c.amt, updCat acc.2.2 c.cat c.amt)

/-- The `generate_summary(records, since_date)`, lines 177–201: returns
`(total_pemasukan, total_pengeluaran, by_category)`. -/
def generate_summary (records : List Rec) (since : Dt) : ℚ × ℚ × List (Cell × ℚ) :=
  records.foldl (gsStep since) (0, 0, [])

/-! ## Spreadsheet gateway (source lines 63–87)

`init_gspread` authenticates and opens the named spreadsheet and
worksheet; its failure modes are `AuthError` (bad credentials) and
`NotFoundError` (missing spreadsheet/worksheet), with other API errors
also possible.  The remote behaviour is an environment `GwEnv`: what
`init_gspread`, `sheet.append_row` and `sheet.get_all_records` would
do if invoked. -/

/-- Failure classes of the remote spreadsheet service. -/
inductive GwError where
  | authError
  | notFoundError
  | apiError
deriving DecidableEq, Repr

/-- The remote store's behaviour: the outcome each raw remote call
would have.  `.error` models the underlying library raising. -/
structure GwEnv where
  connect : Except GwError Unit
  appendRaw : Except GwError Unit
  readRaw : Except GwError (List Rec)

/-- One appended row, in the order the fields are passed to
`sheet.append_row`. -/
abbrev Row := List Cell

/-- The `append_transaction(sheet, row)`, lines 71–78: `try: append_row;
return True; except: log; return False`.  Total — never raises. -/
def append_transaction (env : GwEnv) (row : Row) : Bool :=
  match env.appendRaw with
  | .ok _ => true
  | .error _ => false

/-- The `read_all_transactions(sheet)`, lines 81–87: `try: get_all_records;
except: log; return []`.  Total — never raises. -/
def read_all_transactions (env : GwEnv) : List Rec :=
  match env.readRaw with
  | .ok rs => rs
  | .error _ => []

/-! ## The `/catat` conversation (source lines 46, 107–173, 286–296)

States `JUMLAH, JENIS, KATEGORI, DESKRIPSI, KONFIRM = range(5)` plus a
terminal state for `ConversationHandler.END`.  `context.user_data`
becomes `Session`.  Each handler returns `Except PyErr StepOut`:
`.error` models an exception escaping the handler (in which case
python-telegram-bot logs it and the conversation state is unchanged —
in particular no row is appended). -/

/-- Conversation states (`range(5)` plus `ConversationHandler.END`). -/
inductive DState where
  | jumlah
  | jenis
  | kategori
  | deskripsi
  | konfirm
  | ended
deriving DecidableEq, Repr

/-- The `context.user_data`: the partially collected transaction. -/
structure Session where
  jumlah : Option ℚ
  jenis : Option String
  kategori : Option String
  deskripsi : Option String
deriving DecidableEq, Repr

/-- A fresh `user_data` dict. -/
def emptySession : Session := ⟨none, none, none, none⟩

/-- All four fields collected (always true when `KONFIRM` is reached
from `/catat`). -/
def Session.complete (d : Session) : Bool :=
  d.jumlah.isSome && d.jenis.isSome && d.kategori.isSome && d.deskripsi.isSome

/-- Exceptions that can escape a handler body. -/
inductive PyErr where
  | valueError
  | typeError
  | keyError
  | gwErr (e : GwError)
deriving DecidableEq, Repr

/-- The messages a handler sends back (tags for the fixed
`reply_text` calls of the source). -/
inductive Reply where
  | invalidAmount
  | askType
  | chooseJenis
  | askCategory
  | askDescription
  | confirmSummary
  | txCancelled
  | saveOk
  | saveFail
  | okCancelled
  | sheetUrl
  | sheetFail
deriving DecidableEq, Repr

/-- Result of one handler invocation: next conversation state, the
updated `user_data`, the `append_row` calls made, and the replies
sent. -/
structure StepOut where
  state : DState
  sess : Session
  appends : List Row
  replies : List Reply
deriving DecidableEq, Repr

/-- The `catat_jumlah`, lines 112–120: strip, drop commas, require
`text.replace('.','').isdigit()`, then `float(text)` — which raises
`ValueError` when more than one dot survives the guard. -/
def catat_jumlah (msg : String) (d : Session) : Except PyErr StepOut :=
  let text := removeChar ',' (pyStrip msg.data)
  if ¬ pyIsDigit (removeChar '.' text) then
    .ok ⟨.jumlah, d, [], [.invalidAmount]⟩
  else
    match pyFloatStr text with
    | none => .error .valueError
    | some q => .ok ⟨.jenis, { d with jumlah := some q }, [], [.askType]⟩

/-- The `catat_jenis`, lines 123–130. -/
def catat_jenis (msg : String) (d : Session) : Except PyErr StepOut :=
  let j := pyLower (pyStrip msg.data)
  if j = "pemasukan".data ∨ j = "pengeluaran".data then
    .ok ⟨.kategori, { d with jenis := some (String.mk j) }, [], [.askCategory]⟩
  else
    .ok ⟨.jenis, d, [], [.chooseJenis]⟩

/-- The `catat_kategori`, lines 133–137. -/
def catat_kategori (msg : String) (d : Session) : Except PyErr StepOut :=
  .ok ⟨.deskripsi, { d with kategori := some (String.mk (pyStrip msg.data)) }, [], [.askDescription]⟩

/-- The `catat_deskripsi`, lines 140–150: stores the description and shows
the confirmation summary (`int(jumlah)` in the f-string raises
`TypeError` if no amount was ever stored). -/
def catat_deskripsi (msg : String) (d : Session) : Except PyErr StepOut :=
  match d.jumlah with
  | none => .error .typeError
  | some _ =>
    .ok ⟨.konfirm, { d with deskripsi := some (String.mk (pyStrip msg.data)) }, [], [.confirmSummary]⟩

/-- The affirmative test of line 155: `text.strip().lower() in ('ya', 'y', 'yes')`. -/
def isAffirm (msg : String) : Bool :=
  let t := pyLower (pyStrip msg.data)
  t == "ya".data || t == "y".data || t == "yes".data

/-- The `catat_konfirm`, lines 153–168: on a non-affirmative reply, end
without persisting; otherwise `init_gspread()` (whose exceptions
escape the handler), build the row in the fixed order
`[timestamp, jenis, int(jumlah), kategori, deskripsi, user_id]`
(`context.user_data[...]` raises `KeyError` when unset) and call
`append_transaction`, reporting its boolean as success/failure. -/
def catat_konfirm (env : GwEnv) (uid : ℕ) (now : String) (msg : String) (d : Session) :
    Except PyErr StepOut :=
  if ¬ isAffirm msg then
    .ok ⟨.ended, d, [], [.txCancelled]⟩
  else
    match env.connect with
    | .error e => .error (.gwErr e)
    | .ok _ =>
      match d.jenis, d.jumlah, d.kategori, d.deskripsi with
      | some j, some q, some k, some ds =>
        let row : Row := [.str now, .str j, .num (pyInt q : ℚ), .str k, .str ds, .num uid]
        .ok ⟨.ended, d, [row], [if append_transaction env row then .saveOk else .saveFail]⟩
      | _, _, _, _ => .error .keyError

/-- The `cancel`, lines 171–173: the `/cancel` fallback. -/
def cancel (d : Session) : Except PyErr StepOut :=
  .ok ⟨.ended, d, [], [.okCancelled]⟩

/-- A user turn inside the conversation: a text message (the per-state
`MessageHandler`s filter out commands) or the `/cancel` fallback. -/
inductive Input where
  | text (s : String)
  | cancelCmd
deriving DecidableEq, Repr

/-- Dispatch of one conversation turn, as wired by the
`ConversationHandler` of lines 286–296: `/cancel` fires the fallback
in any active state; a text message goes to the current state's
handler; a finished conversation consumes nothing. -/
def step (env : GwEnv) (uid : ℕ) (now : String) (s : DState) (d : Session) (i : Input) :
    Except PyErr StepOut :=
  match s, i with
  | .ended, _ => .ok ⟨.ended, d, [], []⟩
  | _, .cancelCmd => cancel d
  | .jumlah, .text m => catat_jumlah m d
  | .jenis, .text m => catat_jenis m d
  | .kategori, .text m => catat_kategori m d
  | .deskripsi, .text m => catat_deskripsi m d
  | .konfirm, .text m => catat_konfirm env uid now m d

/-- The `append_row` calls a handler outcome performed (an escaped
exception happens before any append call in every handler). -/
def appendCalls (r : Except PyErr StepOut) : List Row :=
  match r with
  | .ok o => o.appends
  | .error _ => []

/-- Run a whole dialog: fold `step` over the user's turns, collecting
the appended rows; an escaped exception aborts the run. -/
def runDialog (env : GwEnv) (uid : ℕ) (now : String) :
    DState → Session → List Input → Except PyErr (DState × Session × List Row)
  | s, d, [] => .ok (s, d, [])
  | s, d, i :: rest =>
    match step env uid now s d i with
    | .error e => .error e
    | .ok o =>
      match runDialog env uid now o.state o.sess rest with
      | .error e => .error e
      | .ok (s', d', rows) => .ok (s', d', o.appends ++ rows)

/-! ## Report handlers (source lines 204–254) and `/sheet` (264–272) -/

/-- The fixed CSV header written at lines 223 and 249. -/
def csvHeader : Row :=
  [.str "Tanggal", .str "Jenis", .str "Jumlah", .str "Kategori", .str "Deskripsi", .str "User"]

/-- One CSV data row, lines 224–226 / 250–252: fixed column order,
each column a two-spelling `or`-chain defaulting to `''`. -/
def csvRow (r : Rec) : Row :=
  [ orD (pyOr (recGet r "Tanggal") (recGet r "tanggal")) (.str ""),
    orD (pyOr (recGet r "Jenis") (recGet r "jenis")) (.str ""),
    orD (pyOr (recGet r "Jumlah") (recGet r "jumlah")) (.str ""),
    orD (pyOr (recGet r "Kategori") (recGet r "kategori")) (.str ""),
    orD (pyOr (recGet r "Deskripsi") (recGet r "deskripsi")) (.str ""),
    orD (pyOr (recGet r "User") (recGet r "user")) (.str "") ]

/-- The full CSV dump: header plus one row per input record, in input
order, with no time-window filtering. -/
def laporanCsv (records : List Rec) : List Row :=
  csvHeader :: records.map csvRow

/-- What a report handler produces when it completes. -/
structure LapOut where
  pemasukan : ℚ
  pengeluaran : ℚ
  byCat : List (Cell × ℚ)
  csv : List Row
deriving DecidableEq, Repr

/-- The `laporan_minggu`, lines 204–228: `init_gspread()` unguarded (its
exceptions escape the handler), then read all rows, summarise over the
7-day window, and dump the unfiltered CSV. -/
def laporan_minggu (env : GwEnv) (since : Dt) : Except GwError LapOut :=
  match env.connect with
  | .error e => .error e
  | .ok _ =>
    let records := read_all_transactions env
    let (p, g, bc) := generate_summary records since
    .ok ⟨p, g, bc, laporanCsv records⟩

/-- The `laporan_bulan`, lines 231–254: identical to `laporan_minggu` up
to the 30-day window and the top-10 cut of the rendered text. -/
def laporan_bulan (env : GwEnv) (since : Dt) : Except GwError LapOut :=
  match env.connect with
  | .error e => .error e
  | .ok _ =>
    let records := read_all_transactions env
    let (p, g, bc) := generate_summary records since
    .ok ⟨p, g, bc, laporanCsv records⟩

/-- The `sheet_link`, lines 264–272: the whole body is inside
`try ... except`, so a connection failure is caught and answered with
a plain failure message — the one handler that does not let
`AuthError`/`NotFoundError` escape. -/
def sheet_link (env : GwEnv) : Reply :=
  match env.connect with
  | .ok _ => .sheetUrl
  | .error _ => .sheetFail

/-! ## Derived notions used to state the claims -/

/-- Sum of the amounts of a contribution list. -/
def sumAmt (l : List Contrib) : ℚ := (l.map Contrib.amt).sum

/-- The contributions of the non-skipped records, in order. -/
def contribsOf (records : List Rec) (since : Dt) : List Contrib :=
  records.filterMap (procRec since)

/-- The income contributions. -/
def incomesOf (l : List Contrib) : List Contrib := l.filter Contrib.income

/-- The expense contributions. -/
def expensesOf (l : List Contrib) : List Contrib := l.filter (fun c => !c.income)

/-- Fold a contribution list into a category map. -/
def accumCat (m : List (Cell × ℚ)) (l : List Contrib) : List (Cell × ℚ) :=
  l.foldl (fun m c => updCat m c.cat c.amt) m

/-- Sum of the values of a category map. -/
def valsSum (m : List (Cell × ℚ)) : ℚ := (m.map Prod.snd).sum

/-- The claim's income criterion: the type chain yields a non-empty
string that, lowercased, starts with the income keyword. -/
def incomeTest (r : Rec) : Bool :=
  match jenisChain r with
  | some (.str s) => !s.data.isEmpty && startsWithL (pyLower s.data) "pemasukan".data
  | _ => false

/-- The record's stored timestamp is a truthy string that parses and
is not before the window start. -/
def tsInWindow (since : Dt) (r : Rec) : Bool :=
  match tanggalChain r with
  | some (.str s) =>
    !s.data.isEmpty &&
      (match parseTs s with
       | some dt => !dtLt dt since
       | none => false)
  | _ => false

/-- The record's amount cell survives `float(...)`. -/
def jumlahParses (r : Rec) : Bool := (pyFloat (jumlahChain r)).isSome

/-- The record's type chain does not make `jenis.lower()` raise
(i.e. it is not a truthy numeric cell). -/
def jenisProcessable (r : Rec) : Bool :=
  match jenisChain r with
  | some (.num q) => q == 0
  | _ => true

/-- A record counted by the aggregation (not skipped). -/
def includedRec (since : Dt) (r : Rec) : Bool := (procRec since r).isSome

/-! ## Helper lemmas -/

/-- Addition agreement: `pyAdd` equals rational addition. -/
theorem pyAdd_eq (a b : ℚ) : pyAdd a b = a + b := by
  have ha : (a.den : ℚ) ≠ 0 := by exact_mod_cast a.den_nz
  have hb : (b.den : ℚ) ≠ 0 := by exact_mod_cast b.den_nz
  rw [pyAdd, Rat.mkRat_eq_div]
  push_cast
  conv_rhs => rw [← Rat.num_div_den a, ← Rat.num_div_den b]
  field_simp

/-- A dict update adds its amount to the total of the map's values. -/
theorem valsSum_updCat (m : List (Cell × ℚ)) (k : Cell) (v : ℚ) :
    valsSum (updCat m k v) = valsSum m + v := by
  induction m with
  | nil => simp [updCat, valsSum]
  | cons p t ih =>
    obtain ⟨k', v'⟩ := p
    by_cases h : k' = k
    · simp [updCat, h, valsSum, pyAdd_eq]
      ring
    · simp [updCat, h, valsSum] at ih ⊢
      rw [ih]
      ring

/-- Folding contributions into a category map adds their amounts to
the total of the map's values. -/
theorem valsSum_accumCat (l : List Contrib) :
    ∀ m : List (Cell × ℚ), valsSum (accumCat m l) = valsSum m + sumAmt l := by
  induction l with
  | nil => intro m; simp [accumCat, sumAmt]
  | cons c t ih =>
    intro m
    have h1 : accumCat m (c :: t) = accumCat (updCat m c.cat c.amt) t := rfl
    rw [h1, ih, valsSum_updCat, sumAmt, sumAmt]
    simp
    ring

/-- The fold of `generate_summary`, characterised: starting from any
accumulator, it adds the income sum, the expense sum, and folds the
expense contributions into the category map. -/
theorem gs_fold_eq (since : Dt) (records : List Rec) :
    ∀ (a b : ℚ) (m : List (Cell × ℚ)),
      records.foldl (gsStep since) (a, b, m)
        = (a + sumAmt (incomesOf (contribsOf records since)),
           b + sumAmt (expensesOf (contribsOf records since)),
           accumCat m (expensesOf (contribsOf records since))) := by
  induction records with
  | nil => intro a b m; simp [contribsOf, incomesOf, expensesOf, sumAmt, accumCat]
  | cons r rs ih =>
    intro a b m
    cases h : procRec since r with
    | none =>
      have hc : contribsOf (r :: rs) since = contribsOf rs since := by
        simp [contribsOf, h]
      simp only [List.foldl_cons, gsStep, h, hc]
      exact ih a b m
    | some c =>
      have hc : contribsOf (r :: rs) since = c :: contribsOf rs since := by
        simp [contribsOf, h]
      by_cases hi : c.income
      · simp only [List.foldl_cons, gsStep, h, hi, if_pos, hc, pyAdd_eq]
        rw [ih]
        simp [incomesOf, expensesOf, hi, sumAmt, add_assoc]
      · have hi' : c.income = false := by simpa using hi
        simp only [List.foldl_cons, gsStep, h, hi', Bool.false_eq_true, if_neg, hc, pyAdd_eq,
          not_false_eq_true]
        rw [ih]
        simp [incomesOf, expensesOf, hi', sumAmt, accumCat, add_assoc]

/-- Dropping the skipped records does not change the contributions. -/
theorem contribsOf_filter (since : Dt) (records : List Rec) :
    contribsOf (records.filter (includedRec since)) since = contribsOf records since := by
  induction records with
  | nil => rfl
  | cons r rs ih =>
    cases h : procRec since r with
    | none => simp [includedRec, contribsOf, List.filter_cons, h] at ih ⊢; exact ih
    | some c => simp [includedRec, contribsOf, List.filter_cons, h] at ih ⊢; exact ih

/-- Whether a record is counted, split into the three failure-free
conditions: timestamp truthy/parsed/in-window, amount parseable, type
cell processable. -/
theorem includedRec_eq (since : Dt) (r : Rec) :
    includedRec since r = (tsInWindow since r && jumlahParses r && jenisProcessable r) := by
  unfold includedRec procRec tsInWindow jumlahParses jenisProcessable
  cases htc : tanggalChain r with
  | none => simp
  | some tc =>
    cases tc with
    | num q => simp [Cell.truthy]
    | str s =>
      by_cases hs : s.data.isEmpty
      · simp [Cell.truthy, hs]
      · simp only [Cell.truthy, hs, Bool.not_false, if_true, Bool.true_and, ite_not]
        cases hp : parseTs s with
        | none => simp
        | some dt =>
          by_cases hlt : dtLt dt since
          · simp [hlt]
          · simp only [hlt, Bool.not_false, if_neg, Bool.true_and]
            cases hj : pyFloat (jumlahChain r) with
            | none => simp
            | some amt =>
              simp only [Option.isSome_some, Bool.true_and]
              cases hjc : jenisChain r with
              | none => simp
              | some jc =>
                cases jc with
                | num q =>
                  by_cases hq : q = 0
                  · simp [hq]
                  · simp [hq, bne_iff_ne, Ne, hq]
                | str s' =>
                  by_cases hse : s'.data.isEmpty <;>
                    cases hsw : startsWithL (pyLower s'.data) "pemasukan".data <;>
                      simp [hse, hsw]

/-- Dict lookup is stable under permutation when the keys are distinct. -/
theorem lookup_perm :
    ∀ {l l' : List (String × Cell)}, l.Perm l' → (l.map Prod.fst).Nodup →
      ∀ k : String, List.lookup k l = List.lookup k l' := by
  intro l l' p
  induction p with
  | nil => intro _ _; rfl
  | cons x p ih =>
    intro nd k
    obtain ⟨k1, v1⟩ := x
    simp only [List.map_cons, List.nodup_cons] at nd
    by_cases h : k == k1
    · simp [List.lookup, h]
    · simp [List.lookup, h, ih nd.2 k]
  | swap x y l =>
    intro nd k
    obtain ⟨k1, v1⟩ := x
    obtain ⟨k2, v2⟩ := y
    simp only [List.map_cons, List.nodup_cons] at nd
    have hne : k2 ≠ k1 := fun h => nd.1 (by rw [h]; exact List.mem_cons_self _ _)
    by_cases h1 : k == k1 <;> by_cases h2 : k == k2
    · exact absurd ((eq_of_beq h2).symm.trans (eq_of_beq h1)) hne
    · simp [List.lookup, h1, h2]
    · simp [List.lookup, h1, h2]
    · simp [List.lookup, h1, h2]
  | trans p1 p2 ih1 ih2 =>
    intro nd k
    have nd2 := ((p1.map Prod.fst).nodup_iff).mp nd
    rw [ih1 nd k, ih2 nd2 k]

/-- A CSV data row is determined by the record's mapping, not by its
field order. -/
theorem csvRow_perm (r r' : Rec) (p : r.Perm r') (nd : (r.map Prod.fst).Nodup) :
    csvRow r = csvRow r' := by
  simp only [csvRow, recGet, lookup_perm p nd]

/-- A counted record's classification is the income test on its type
chain, and its category is the category chain. -/
theorem procRec_some_fields (since : Dt) (r : Rec) (c : Contrib) (h : procRec since r = some c) :
    c.income = incomeTest r ∧ c.cat = kategoriChain r := by
  unfold procRec at h
  unfold incomeTest
  split at h <;> try simp_all
  split at h <;> try simp_all
  split at h <;> try simp_all
  split at h <;> try simp_all
  split at h <;> try simp_all
  all_goals obtain ⟨-, -, h3⟩ := h
  all_goals try (obtain ⟨-, h3⟩ := h3)
  all_goals try (split at h3)
  all_goals try (split at h3)
  all_goals try (injection h3 with h3)
  all_goals try (subst h3)
  all_goals simp_all

/-- The summary triple, written as sums and a map over the filtered
contributions. -/
theorem generate_summary_eq (records : List Rec) (since : Dt) :
    generate_summary records since
      = (sumAmt (incomesOf (contribsOf records since)),
         sumAmt (expensesOf (contribsOf records since)),
         accumCat [] (expensesOf (contribsOf records since))) := by
  unfold generate_summary
  rw [gs_fold_eq]
  simp

/-- The `appendCalls` on a normal return. -/
theorem appendCalls_ok (o : StepOut) : appendCalls (.ok o) = o.appends := rfl

/-- The `appendCalls` on an escaped exception. -/
theorem appendCalls_error (e : PyErr) : appendCalls (.error e) = [] := rfl

/-- The `catat_jumlah` never calls `append_row`. -/
theorem appendCalls_catat_jumlah (m : String) (d : Session) :
    appendCalls (catat_jumlah m d) = [] := by
  by_cases h : pyIsDigit (removeChar '.' (removeChar ',' (pyStrip m.data)))
  · cases hx : pyFloatStr (removeChar ',' (pyStrip m.data)) <;>
      simp [catat_jumlah, appendCalls, h, hx]
  · simp [catat_jumlah, appendCalls, h]

/-- The `catat_jenis` never calls `append_row`. -/
theorem appendCalls_catat_jenis (m : String) (d : Session) :
    appendCalls (catat_jenis m d) = [] := by
  by_cases h : pyLower (pyStrip m.data) = "pemasukan".data ∨ pyLower (pyStrip m.data) = "pengeluaran".data <;>
    simp [catat_jenis, appendCalls, h]

/-- The `catat_deskripsi` never calls `append_row`. -/
theorem appendCalls_catat_deskripsi (m : String) (d : Session) :
    appendCalls (catat_deskripsi m d) = [] := by
  cases h : d.jumlah <;> simp [catat_deskripsi, appendCalls, h]

/-- A non-affirmative confirmation ends the dialog with no append. -/
theorem catat_konfirm_nonaffirm (env : GwEnv) (uid : ℕ) (now : String) (m : String) (d : Session)
    (hm : isAffirm m = false) :
    catat_konfirm env uid now m d = .ok ⟨.ended, d, [], [.txCancelled]⟩ := by
  simp [catat_konfirm, hm]

/-- An affirmative confirmation with a reachable gateway and a
complete session builds exactly the fixed row and reports the write's
boolean. -/
theorem catat_konfirm_affirm (env : GwEnv) (uid : ℕ) (now : String) (m : String) (d : Session)
    (j k ds : String) (q : ℚ) (hc : env.connect = .ok ()) (hm : isAffirm m = true)
    (hj : d.jenis = some j) (hq : d.jumlah = some q) (hk : d.kategori = some k)
    (hds : d.deskripsi = some ds) :
    catat_konfirm env uid now m d
      = .ok ⟨.ended, d,
          [[.str now, .str j, .num (pyInt q : ℚ), .str k, .str ds, .num uid]],
          [if append_transaction env
              [.str now, .str j, .num (pyInt q : ℚ), .str k, .str ds, .num uid]
            then .saveOk else .saveFail]⟩ := by
  simp [catat_konfirm, hm, hc, hj, hq, hk, hds]

/-- The reachability invariant of the conversation: each state owns
the fields collected before it; at `KONFIRM` the session is complete. -/
def sessInv (s : DState) (d : Session) : Bool :=
  match s with
  | .jumlah => true
  | .jenis => d.jumlah.isSome
  | .kategori => d.jumlah.isSome && d.jenis.isSome
  | .deskripsi => d.jumlah.isSome && d.jenis.isSome && d.kategori.isSome
  | .konfirm => d.complete
  | .ended => true

/-- Every conversation turn preserves the reachability invariant; in
particular a run from `/catat` (state `JUMLAH`) only reaches
`KONFIRM` with a complete session. -/
theorem step_preserves_inv (env : GwEnv) (uid : ℕ) (now : String) (s : DState) (d : Session)
    (i : Input) (o : StepOut) (hI : sessInv s d = true)
    (h : step env uid now s d i = .ok o) : sessInv o.state o.sess = true := by
  cases s <;> cases i <;>
    simp only [step, cancel, catat_jumlah, catat_jenis, catat_kategori, catat_deskripsi,
      catat_konfirm] at h
  all_goals try (split at h)
  all_goals try (split at h)
  all_goals try (split at h)
  all_goals try (injection h with h)
  all_goals try (subst h)
  all_goals simp_all [sessInv, Session.complete]

/-! ## The claims -/

/-- Fixtures used by witnesses and counterexamples. -/
def envOk0 : GwEnv := ⟨.ok (), .ok (), .ok []⟩

def envAuth0 : GwEnv := ⟨.error .authError, .ok (), .ok []⟩

def envWriteFail0 : GwEnv := ⟨.ok (), .error .apiError, .ok []⟩

def sessFull0 : Session := ⟨some 20000, some "pengeluaran", some "makan", some "nasi"⟩

def since0 : Dt := ⟨2023, 12, 25, 0, 0, 0⟩

/-- A record whose timestamp is fine but whose amount cell is a
non-numeric string. -/
def recBadAmt : Rec := [("Tanggal", .str "2024-01-01 10:00:00"), ("Jumlah", .str "abc")]

/-- The spec's worked expense example record. -/
def recExp0 : Rec :=
  [("Tanggal", .str "2024-01-01 10:00:00"), ("Jenis", .str "pengeluaran"),
   ("Jumlah", .num 50000), ("Kategori", .str "makan")]

/-- C1: in any conversation turn with a reachable gateway and a fully
collected session, an `append_row` call is made if and only if the
turn is a text message in `AwaitingConfirmation` whose content,
stripped and lowercased, is an affirmative token; every other input —
a non-affirmative confirmation, the `/cancel` fallback, and every turn
in a non-confirmation state — produces no `append_row` call. -/
theorem c1_append_iff_affirmative (env : GwEnv) (uid : ℕ) (now : String) (d : Session) (i : Input)
    (hc : env.connect = .ok ()) (hd : d.complete = true) (s : DState) :
    appendCalls (step env uid now s d i) ≠ []
      ↔ (s = .konfirm ∧ ∃ m, i = .text m ∧ isAffirm m = true) := by
  have hq : ∃ x, d.jumlah = some x := by
    simp only [Session.complete, Bool.and_eq_true, Option.isSome_iff_exists] at hd
    exact hd.1.1.1
  have hj : ∃ x, d.jenis = some x := by
    simp only [Session.complete, Bool.and_eq_true, Option.isSome_iff_exists] at hd
    exact hd.1.1.2
  have hk : ∃ x, d.kategori = some x := by
    simp only [Session.complete, Bool.and_eq_true, Option.isSome_iff_exists] at hd
    exact hd.1.2
  have hds : ∃ x, d.deskripsi = some x := by
    simp only [Session.complete, Bool.and_eq_true, Option.isSome_iff_exists] at hd
    exact hd.2
  obtain ⟨q, hq⟩ := hq
  obtain ⟨j, hj⟩ := hj
  obtain ⟨k, hk⟩ := hk
  obtain ⟨ds, hds⟩ := hds
  cases s <;> cases i <;>
    simp [step, cancel, appendCalls_catat_jumlah, appendCalls_catat_jenis,
      catat_kategori, appendCalls_catat_deskripsi, appendCalls_ok, appendCalls_error]
  case konfirm.text m =>
    by_cases hm : isAffirm m
    · rw [catat_konfirm_affirm env uid now m d j k ds q hc hm hj hq hk hds]
      simp [appendCalls_ok, hm]
    · have hm' : isAffirm m = false := by simpa using hm
      rw [catat_konfirm_nonaffirm env uid now m d hm']
      simp [appendCalls_ok, hm']

/-- Witness for C1 at a concrete confirmation turn. -/
theorem c1_witness :
    appendCalls (step envOk0 7 "TS" .konfirm sessFull0 (.text "ya")) ≠ [] :=
  (c1_append_iff_affirmative envOk0 7 "TS" sessFull0 (.text "ya") rfl (by decide)
    .konfirm).mpr ⟨rfl, "ya", rfl, by decide⟩

/-- C2 (code bug): the guard `text.replace('.','').isdigit()` accepts
the input `1.2.3`, but `float('1.2.3')` then raises an uncaught
`ValueError`, so the handler errors out instead of re-prompting; on
genuinely non-numeric input it re-prompts and stays in
`AwaitingAmount`, and on a clean amount it stores the value and
advances to `AwaitingType` (commas stripped as thousands
separators). -/
theorem c2_amount_guard_bug :
    pyIsDigit (removeChar '.' (removeChar ',' (pyStrip "1.2.3".data))) = true
    ∧ catat_jumlah "1.2.3" emptySession = .error .valueError
    ∧ catat_jumlah "abc" emptySession = .ok ⟨.jumlah, emptySession, [], [.invalidAmount]⟩
    ∧ catat_jumlah "" emptySession = .ok ⟨.jumlah, emptySession, [], [.invalidAmount]⟩
    ∧ catat_jumlah "-5" emptySession = .ok ⟨.jumlah, emptySession, [], [.invalidAmount]⟩
    ∧ catat_jumlah "20000" emptySession
        = .ok ⟨.jenis, ⟨some 20000, none, none, none⟩, [], [.askType]⟩
    ∧ catat_jumlah "1,000" emptySession
        = .ok ⟨.jenis, ⟨some 1000, none, none, none⟩, [], [.askType]⟩ := by
  decide

/-- C6: with a reachable gateway, an affirmative confirmation over a
complete session makes exactly one `append_row` call whose fields are,
in order, the timestamp, the stored type, the truncated amount, the
stored category, the stored description and the user id; and the
worked dialog `20000 / pengeluaran / makan / nasi / ya` appends
exactly `[now, "pengeluaran", 20000, "makan", "nasi", uid]`. -/
theorem c6_confirm_row (env : GwEnv) (uid : ℕ) (now : String) (hc : env.connect = .ok ()) :
    (∀ (d : Session) (m j k ds : String) (q : ℚ),
       isAffirm m = true → d.jenis = some j → d.jumlah = some q →
       d.kategori = some k → d.deskripsi = some ds →
       appendCalls (catat_konfirm env uid now m d)
         = [[.str now, .str j, .num (pyInt q : ℚ), .str k, .str ds, .num uid]])
    ∧ runDialog env uid now .jumlah emptySession
        [.text "20000", .text "pengeluaran", .text "makan", .text "nasi", .text "ya"]
        = .ok (.ended, ⟨some 20000, some "pengeluaran", some "makan", some "nasi"⟩,
            [[.str now, .str "pengeluaran", .num 20000, .str "makan", .str "nasi", .num uid]]) := by
  constructor
  · intro d m j k ds q hm hj hq hk hds
    rw [catat_konfirm_affirm env uid now m d j k ds q hc hm hj hq hk hds]
    rfl
  · have h1 : catat_jumlah "20000" emptySession
        = .ok ⟨.jenis, ⟨some 20000, none, none, none⟩, [], [.askType]⟩ := by decide
    have h2 : catat_jenis "pengeluaran" ⟨some 20000, none, none, none⟩
        = .ok ⟨.kategori, ⟨some 20000, some "pengeluaran", none, none⟩, [], [.askCategory]⟩ := by
      decide
    have h3 : catat_kategori "makan" ⟨some 20000, some "pengeluaran", none, none⟩
        = .ok ⟨.deskripsi, ⟨some 20000, some "pengeluaran", some "makan", none⟩, [],
            [.askDescription]⟩ := by decide
    have h4 : catat_deskripsi "nasi" ⟨some 20000, some "pengeluaran", some "makan", none⟩
        = .ok ⟨.konfirm, ⟨some 20000, some "pengeluaran", some "makan", some "nasi"⟩, [],
            [.confirmSummary]⟩ := by decide
    have h5 : catat_konfirm env uid now "ya" ⟨some 20000, some "pengeluaran", some "makan", some "nasi"⟩
        = .ok ⟨.ended, ⟨some 20000, some "pengeluaran", some "makan", some "nasi"⟩,
            [[.str now, .str "pengeluaran", .num (pyInt 20000 : ℚ), .str "makan", .str "nasi", .num uid]],
            [if append_transaction env
                [.str now, .str "pengeluaran", .num (pyInt 20000 : ℚ), .str "makan", .str "nasi", .num uid]
              then .saveOk else .saveFail]⟩ :=
      catat_konfirm_affirm env uid now "ya" _ "pengeluaran" "makan" "nasi" 20000 hc (by decide)
        rfl rfl rfl rfl
    have h6 : (pyInt 20000 : ℚ) = 20000 := by decide
    rw [h6] at h5
    simp [runDialog, step, h1, h2, h3, h4, h5]

/-- Witness for C6 at a concrete gateway, user and clock. -/
theorem c6_witness :
    appendCalls (catat_konfirm envOk0 7 "TS" "ya" sessFull0)
        = [[.str "TS", .str "pengeluaran", .num (pyInt 20000 : ℚ), .str "makan", .str "nasi", .num 7]]
    ∧ runDialog envOk0 7 "TS" .jumlah emptySession
        [.text "20000", .text "pengeluaran", .text "makan", .text "nasi", .text "ya"]
        = .ok (.ended, ⟨some 20000, some "pengeluaran", some "makan", some "nasi"⟩,
            [[.str "TS", .str "pengeluaran", .num 20000, .str "makan", .str "nasi", .num 7]]) :=
  ⟨(c6_confirm_row envOk0 7 "TS" rfl).1 sessFull0 "ya" "pengeluaran" "makan" "nasi" 20000
      (by decide) rfl rfl rfl rfl,
   (c6_confirm_row envOk0 7 "TS" rfl).2⟩

/-- The `AwaitingType` acceptance test: the stripped, lowercased input
equals one of the two localized type keywords. -/
def jenisAccepted (m : String) : Bool :=
  pyLower (pyStrip m.data) == "pemasukan".data || pyLower (pyStrip m.data) == "pengeluaran".data

/-- C9: `AwaitingType` accepts an input exactly when it
case-insensitively equals a type keyword (up to surrounding
whitespace); on acceptance it stores the lowercased type and advances
to `AwaitingCategory`, otherwise it re-prompts and stays, touching
nothing. -/
theorem c9_type_validation (m : String) (d : Session) :
    (jenisAccepted m = true →
      catat_jenis m d
        = .ok ⟨.kategori, { d with jenis := some (String.mk (pyLower (pyStrip m.data))) }, [],
            [.askCategory]⟩)
    ∧ (jenisAccepted m = false → catat_jenis m d = .ok ⟨.jenis, d, [], [.chooseJenis]⟩)
    ∧ ((catat_jenis m d).map StepOut.state = .ok .kategori ↔ jenisAccepted m = true) := by
  by_cases h : pyLower (pyStrip m.data) = "pemasukan".data ∨ pyLower (pyStrip m.data) = "pengeluaran".data
  · have hb : jenisAccepted m = true := by simpa [jenisAccepted] using h
    exact ⟨fun _ => by simp [catat_jenis, h],
           fun hf => by rw [hb] at hf; exact absurd hf (by decide),
           by simp [catat_jenis, h, hb, Except.map]⟩
  · have hb : jenisAccepted m = false := by
      simp only [jenisAccepted, Bool.or_eq_false_iff, beq_eq_false_iff_ne, Ne]
      tauto
    exact ⟨fun ht => by rw [hb] at ht; exact absurd ht (by decide),
           fun _ => by simp [catat_jenis, h],
           by simp [catat_jenis, h, hb, Except.map]⟩

/-- Witness for C9: a padded, uppercased income keyword is accepted
and stored lowercased. -/
theorem c9_witness :
    catat_jenis " PEMASUKAN " emptySession
      = .ok ⟨.kategori, ⟨none, some "pemasukan", none, none⟩, [], [.askCategory]⟩ := by
  rw [(c9_type_validation " PEMASUKAN " emptySession).1 (by decide)]
  decide

/-- C3 counterexample: with invalid credentials, `AuthError` escapes
the transaction-confirmation handler and both report handlers — it is
not confined to `/sheet` or startup. -/
theorem c3_counterexample :
    catat_konfirm envAuth0 7 "TS" "ya" sessFull0 = .error (.gwErr .authError)
    ∧ laporan_minggu envAuth0 since0 = .error .authError
    ∧ laporan_bulan envAuth0 since0 = .error .authError := by
  decide

/-- C3 amended: connection failures (`AuthError`/`NotFoundError`)
escape the confirmation handler (on an affirmative reply) and both
report handlers, each of which connects per invocation without a
guard; only `/sheet` catches them and answers with a failure message.
A write failure during confirmation is reported to the user as the
failure message, with exactly one append attempt and no retry. -/
theorem c3_amended_error_paths (env : GwEnv) (uid : ℕ) (now : String) (d : Session) (m : String)
    (since : Dt) :
    (∀ e : GwError, env.connect = .error e → isAffirm m = true →
        catat_konfirm env uid now m d = .error (.gwErr e))
    ∧ (∀ e : GwError, env.connect = .error e →
        laporan_minggu env since = .error e ∧ laporan_bulan env since = .error e
          ∧ sheet_link env = .sheetFail)
    ∧ (∀ e : GwError, env.connect = .ok () → env.appendRaw = .error e → isAffirm m = true →
        d.complete = true →
        ∃ o : StepOut, catat_konfirm env uid now m d = .ok o
          ∧ o.replies = [.saveFail] ∧ o.appends.length = 1) := by
  refine ⟨?_, ?_, ?_⟩
  · intro e he hm
    simp [catat_konfirm, hm, he]
  · intro e he
    exact ⟨by simp [laporan_minggu, he], by simp [laporan_bulan, he], by simp [sheet_link, he]⟩
  · intro e hc ha hm hd
    simp only [Session.complete, Bool.and_eq_true, Option.isSome_iff_exists] at hd
    obtain ⟨⟨⟨⟨q, hq⟩, j, hj⟩, k, hk⟩, ds, hds⟩ := hd
    refine ⟨_, catat_konfirm_affirm env uid now m d j k ds q hc hm hj hq hk hds, ?_, rfl⟩
    simp [append_transaction, ha]

/-- Witness for C3's amended statement at concrete environments. -/
theorem c3_witness :
    catat_konfirm envAuth0 7 "TS" "YA" sessFull0 = .error (.gwErr .authError)
    ∧ sheet_link envAuth0 = .sheetFail
    ∧ (∃ o : StepOut, catat_konfirm envWriteFail0 7 "TS" "ya" sessFull0 = .ok o
        ∧ o.replies = [.saveFail] ∧ o.appends.length = 1) :=
  ⟨(c3_amended_error_paths envAuth0 7 "TS" sessFull0 "YA" since0).1 .authError rfl (by decide),
   ((c3_amended_error_paths envAuth0 7 "TS" sessFull0 "YA" since0).2.1 .authError rfl).2.2,
   (c3_amended_error_paths envWriteFail0 7 "TS" sessFull0 "ya" since0).2.2 .apiError rfl rfl
     (by decide) (by decide)⟩

/-- C4: the two totals are the sums of the amounts of the counted
records classified by the income test — the type chain yields a
non-empty string that, lowercased, starts with `pemasukan` — with
every other counted record (blank or missing type included) going to
the expense total; the category map is folded from the expense
contributions only, and a missing or falsy category chain yields the
fixed `Lain-lain` label. -/
theorem c4_summary_classification (records : List Rec) (since : Dt) :
    generate_summary records since
      = (sumAmt (incomesOf (contribsOf records since)),
         sumAmt (expensesOf (contribsOf records since)),
         accumCat [] (expensesOf (contribsOf records since)))
    ∧ (∀ r : Rec, (procRec since r).map Contrib.income
        = (procRec since r).map (fun _ => incomeTest r))
    ∧ (∀ r : Rec, (procRec since r).map Contrib.cat
        = (procRec since r).map (fun _ => kategoriChain r))
    ∧ (∀ r : Rec, pyOr (recGet r "Kategori") (recGet r "kategori") = none →
        kategoriChain r = .str "Lain-lain") := by
  refine ⟨generate_summary_eq records since, ?_, ?_, ?_⟩
  · intro r
    cases h : procRec since r with
    | none => rfl
    | some c => simp [(procRec_some_fields since r c h).1]
  · intro r
    cases h : procRec since r with
    | none => rfl
    | some c => simp [(procRec_some_fields since r c h).2]
  · intro r h
    simp [kategoriChain, h, orD]

/-- Witness for C4: the income test and default category on concrete
records (type `Pemasukan` counts as income; blank type counts as
expense; a record with no category cell gets `Lain-lain`). -/
theorem c4_witness :
    kategoriChain recBadAmt = .str "Lain-lain"
    ∧ (procRec since0 recExp0).map Contrib.income
        = (procRec since0 recExp0).map (fun _ => incomeTest recExp0) :=
  ⟨(c4_summary_classification [] since0).2.2.2 recBadAmt (by decide),
   (c4_summary_classification [] since0).2.1 recExp0⟩

/-! ## IEEE-754 binary64 accumulation (for C10)

The amounts the program accumulates are CPython floats: every `+`
performed by `total_pengeluaran += jumlah` and
`by_category[kategori] = by_category.get(kategori, 0) + jumlah` is an
exact rational addition followed by a binary64 rounding.  The exact
abstraction (`pyAdd`) is adequate for classification, routing and
ordering, but not for exact arithmetic identities between the two
different groupings of these additions, which `flRound` makes
visible. -/

/-- Fuel-driven floor of the binary logarithm; `log2f n n` is
`floor(log2 n)` for `n ≥ 1` (the fuel `n` bounds the halving depth). -/
def log2f : ℕ → ℕ → ℕ
  | 0, _ => 0
  | f + 1, n => if 2 ≤ n then log2f f (n / 2) + 1 else 0

/-- Does `2 ^ k ≤ n / d` hold, in integer arithmetic. -/
def le2pow (k : ℤ) (n d : ℕ) : Bool :=
  if 0 ≤ k then d * 2 ^ k.toNat ≤ n else d ≤ n * 2 ^ (-k).toNat

/-- Floor of `log2 (n / d)` for positive `n`, `d`: the candidate from
the integer logarithms is off by at most one, fixed by one test. -/
def ilog2q (n d : ℕ) : ℤ :=
  let k0 : ℤ := (log2f n n : ℤ) - (log2f d d : ℤ)
  if le2pow k0 n d then k0 else k0 - 1

/-- IEEE-754 binary64 rounding: round to nearest, ties to even, with a
53-bit significand and unbounded exponent range (it agrees with
CPython's doubles on the normal range; overflow and subnormals are
outside the model).  The significand is the integer part of
`|q| / 2 ^ e` with `e` chosen so it lies in `[2^52, 2^53)`, rounded on
the remainder. -/
def flRound (q : ℚ) : ℚ :=
  if q.num = 0 then 0
  else
    let n : ℕ := q.num.natAbs
    let d : ℕ := q.den
    let e : ℤ := ilog2q n d - 52
    let ND : ℕ × ℕ := if 0 ≤ e then (n, d * 2 ^ e.toNat) else (n * 2 ^ (-e).toNat, d)
    let f := ND.1 / ND.2
    let r := ND.1 % ND.2
    let f' : ℕ :=
      if 2 * r < ND.2 then f
      else if ND.2 < 2 * r then f + 1
      else if f % 2 = 0 then f else f + 1
    let sgn : ℤ := if q.num < 0 then -1 else 1
    if 0 ≤ e then mkRat (sgn * ((f' * 2 ^ e.toNat : ℕ) : ℤ)) 1
    else mkRat (sgn * (f' : ℤ)) (2 ^ (-e).toNat)

/-- One Python float addition: exact sum, then binary64 rounding. -/
def flAdd (a b : ℚ) : ℚ := flRound (pyAdd a b)

/-- The dict update of line 197 with its addition performed in
binary64, as the program computes it. -/
def updCatF : List (Cell × ℚ) → Cell → ℚ → List (Cell × ℚ)
  | [], k, v => [(k, flAdd 0 v)]
  | (k', v') :: t, k, v =>
    if k' = k then (k', flAdd v' v) :: t else (k', v') :: updCatF t k v

/-- One loop iteration of `generate_summary` with binary64 additions. -/
def gsStepF (since : Dt) (acc : ℚ × ℚ × List (Cell × ℚ)) (r : Rec) : ℚ × ℚ × List (Cell × ℚ) :=
  match procRec since r with
  | none => acc
  | some c =>
    if c.income then (flAdd acc.1 c.amt, acc.2.1, acc.2.2)
    else (acc.1, flAdd acc.2.1 c.amt, updCatF acc.2.2 c.cat c.amt)

/-- The summary with the accumulation carried out in binary64 floats,
as the Python program actually computes it. -/
def generate_summary_float (records : List Rec) (since : Dt) : ℚ × ℚ × List (Cell × ℚ) :=
  records.foldl (gsStepF since) (0, 0, [])

/-- Sum of the map's values, itself computed in binary64. -/
def valsSumF (m : List (Cell × ℚ)) : ℚ := (m.map Prod.snd).foldl flAdd 0

/-- An in-window expense record with a given category and (double)
amount. -/
def recFloat (cat : String) (q : ℚ) : Rec :=
  [("Tanggal", .str "2024-01-01 10:00:00"), ("Jenis", .str "pengeluaran"),
   ("Jumlah", .num q), ("Kategori", .str cat)]

/-- Amounts `0.1`, `0.2`, `0.3` (as the doubles CPython stores for
them) over categories `A`, `B`, `B`. -/
def recsFloat : List Rec :=
  [recFloat "A" (flRound (mkRat 1 10)), recFloat "B" (flRound (mkRat 1 5)),
   recFloat "B" (flRound (mkRat 3 10))]

/-- C10 counterexample: with the additions performed in binary64 as
the program performs them, amounts `0.1/0.2/0.3` over categories
`A/B/B` give `total_pengeluaran = 0.6000000000000001` (the double
`1351079888211149 / 2^51`) while the returned map is
`{A: 0.1, B: 0.5}` — whose value sum differs from the total whether
the values are summed in floats (`0.6`) or exactly.  The exact
equality claimed does not survive the program's float rounding. -/
theorem c10_counterexample :
    flRound (mkRat 1 10) = mkRat 3602879701896397 36028797018963968
    ∧ (generate_summary_float recsFloat since0).2.1 = mkRat 1351079888211149 2251799813685248
    ∧ (generate_summary_float recsFloat since0).2.2
        = [(.str "A", flRound (mkRat 1 10)), (.str "B", mkRat 1 2)]
    ∧ valsSumF (generate_summary_float recsFloat since0).2.2
        ≠ (generate_summary_float recsFloat since0).2.1
    ∧ valsSum (generate_summary_float recsFloat since0).2.2
        ≠ (generate_summary_float recsFloat since0).2.1 := by
  refine ⟨by decide, by decide, by decide, by decide, ?_⟩
  have h2 : (generate_summary_float recsFloat since0).2.2
      = [(Cell.str "A", flRound (mkRat 1 10)), (Cell.str "B", mkRat 1 2)] := by decide
  rw [h2]
  have hsum : valsSum [(Cell.str "A", flRound (mkRat 1 10)), (Cell.str "B", mkRat 1 2)]
      = pyAdd (flRound (mkRat 1 10)) (mkRat 1 2) := by
    simp [valsSum, pyAdd_eq]
  rw [hsum]
  decide

/-- C10 (amended): every record counted as an expense adds its amount
both to the expense total and to exactly one category-map entry — the
two accumulations apply the same additions in different groupings — so
with the additions taken exactly (the `pyAdd` abstraction) the expense
total equals the sum of the category map's values for every record
list and window.  Under the program's IEEE-754 float additions the two
sides agree only up to rounding and can differ exactly
(`c10_counterexample`). -/
theorem c10_expense_total_eq_catmap_sum (records : List Rec) (since : Dt) :
    valsSum (generate_summary records since).2.2 = (generate_summary records since).2.1 := by
  rw [generate_summary_eq]
  rw [valsSum_accumCat]
  simp [valsSum]

/-- C5 counterexample: a record whose timestamp is present, parses,
and lies inside the window is nevertheless skipped by the aggregation
because its amount cell is a non-numeric string — yet it still
appears as a data row of the unfiltered CSV dump. -/
theorem c5_counterexample :
    parseTs "2024-01-01 10:00:00" = some ⟨2024, 1, 1, 10, 0, 0⟩
    ∧ dtLt ⟨2024, 1, 1, 10, 0, 0⟩ since0 = false
    ∧ tanggalChain recBadAmt = some (.str "2024-01-01 10:00:00")
    ∧ includedRec since0 recBadAmt = false
    ∧ generate_summary [recBadAmt] since0 = (0, 0, [])
    ∧ laporanCsv [recBadAmt]
        = [csvHeader,
           [.str "2024-01-01 10:00:00", .str "", .str "abc", .str "", .str "", .str ""]] := by
  decide

/-- C5 amended: a record is counted exactly when its timestamp chain
is a truthy string that parses to a time not before the window start
AND its amount cell survives `float` AND its type cell does not make
`.lower()` raise; skipped records change nothing in the aggregation
(dropping them leaves the summary unchanged), and every input record —
skipped or not — appears as a CSV data row at its position. -/
theorem c5_amended_inclusion (records : List Rec) (since : Dt) :
    (∀ r : Rec, includedRec since r
        = (tsInWindow since r && jumlahParses r && jenisProcessable r))
    ∧ generate_summary (records.filter (includedRec since)) since = generate_summary records since
    ∧ (laporanCsv records).length = records.length + 1
    ∧ (∀ i, (h : i < records.length) → (laporanCsv records)[i + 1]? = some (csvRow records[i])) := by
  refine ⟨fun r => includedRec_eq since r, ?_, by simp [laporanCsv], ?_⟩
  · unfold generate_summary
    rw [gs_fold_eq, gs_fold_eq, contribsOf_filter]
  · intro i h
    simp [laporanCsv, List.getElem?_map, List.getElem?_eq_getElem, h]

/-- Witness for C5's amended statement on the counterexample record. -/
theorem c5_witness :
    (laporanCsv [recBadAmt])[0 + 1]? = some (csvRow recBadAmt) :=
  (c5_amended_inclusion [recBadAmt] since0).2.2.2 0 (by decide)

/-- C7: the gateway wrappers are total: `append_transaction` returns
`True` exactly when the raw append succeeds (and `False`, never an
exception, otherwise), and `read_all_transactions` returns the rows on
success and the empty list on any read failure. -/
theorem c7_gateway_total (env : GwEnv) (row : Row) :
    (append_transaction env row = true ↔ env.appendRaw = .ok ())
    ∧ (∀ rs : List Rec, env.readRaw = .ok rs → read_all_transactions env = rs)
    ∧ (∀ e : GwError, env.readRaw = .error e → read_all_transactions env = []) := by
  refine ⟨?_, ?_, ?_⟩
  · unfold append_transaction
    cases h : env.appendRaw with
    | ok u => simp
    | error e => simp
  · intro rs h
    simp [read_all_transactions, h]
  · intro e h
    simp [read_all_transactions, h]

/-- Witness for C7 at concrete failing and succeeding stores. -/
theorem c7_witness :
    read_all_transactions ⟨.ok (), .ok (), .error .apiError⟩ = []
    ∧ read_all_transactions ⟨.ok (), .ok (), .ok [recExp0]⟩ = [recExp0]
    ∧ append_transaction envWriteFail0 [] = false :=
  ⟨(c7_gateway_total ⟨.ok (), .ok (), .error .apiError⟩ []).2.2 .apiError rfl,
   (c7_gateway_total ⟨.ok (), .ok (), .ok [recExp0]⟩ []).2.1 [recExp0] rfl,
   by
     have h := (c7_gateway_total envWriteFail0 []).1
     revert h
     decide⟩

/-- C8: the CSV attachment of both report handlers is the fixed
header plus one data row per stored record in input order — N+1 rows
for N records — with the fixed column order independent of each
record's own field order (given distinct field names), and with no
time-window filtering: both handlers dump the same CSV whatever their
windows. -/
theorem c8_csv_rows (records : List Rec) :
    (laporanCsv records).length = records.length + 1
    ∧ (laporanCsv records).head? = some csvHeader
    ∧ (∀ i, (h : i < records.length) → (laporanCsv records)[i + 1]? = some (csvRow records[i]))
    ∧ (∀ r r' : Rec, r.Perm r' → (r.map Prod.fst).Nodup → csvRow r = csvRow r')
    ∧ (∀ (env : GwEnv) (s1 s2 : Dt) (o1 o2 : LapOut),
        laporan_minggu env s1 = .ok o1 → laporan_bulan env s2 = .ok o2 →
          o1.csv = laporanCsv (read_all_transactions env) ∧ o2.csv = o1.csv) := by
  refine ⟨by simp [laporanCsv], rfl, ?_, csvRow_perm, ?_⟩
  · intro i h
    simp [laporanCsv, List.getElem?_map, List.getElem?_eq_getElem, h]
  · intro env s1 s2 o1 o2 h1 h2
    cases hc : env.connect with
    | error e => rw [laporan_minggu, hc] at h1; cases h1
    | ok u =>
      rcases hg1 : generate_summary (read_all_transactions env) s1 with ⟨p1, g1, b1⟩
      rcases hg2 : generate_summary (read_all_transactions env) s2 with ⟨p2, g2, b2⟩
      simp only [laporan_minggu, hc, hg1, Except.ok.injEq] at h1
      simp only [laporan_bulan, hc, hg2, Except.ok.injEq] at h2
      subst h1
      subst h2
      exact ⟨rfl, rfl⟩

/-- Witness for C8: field order does not change a record's CSV row,
and a completed weekly report carries the unfiltered dump. -/
theorem c8_witness :
    csvRow [("Jenis", .num 1), ("Tanggal", .str "t")]
        = csvRow [("Tanggal", .str "t"), ("Jenis", .num 1)]
    ∧ ∀ o1 o2 : LapOut,
        laporan_minggu ⟨.ok (), .ok (), .ok [recExp0]⟩ since0 = .ok o1 →
        laporan_bulan ⟨.ok (), .ok (), .ok [recExp0]⟩ ⟨2023, 11, 25, 0, 0, 0⟩ = .ok o2 →
          o1.csv = laporanCsv [recExp0] ∧ o2.csv = o1.csv := by
  constructor
  · exact (c8_csv_rows []).2.2.2.1 _ _ (by decide) (by decide)
  · intro o1 o2 h1 h2
    have h := (c8_csv_rows []).2.2.2.2 ⟨.ok (), .ok (), .ok [recExp0]⟩ since0
      ⟨2023, 11, 25, 0, 0, 0⟩ o1 o2 h1 h2
    exact ⟨by rw [h.1]; decide, h.2⟩
